import Mathlib

/-!
A shallow embedding of the otter autoscaling control plane (the scheduler in
`otter/scheduler.py`, the convergence data model in `otter/convergence/model.py`
and the launch worker in `otter/worker/launch_server_v1.py`), together with
theorems settling the specification claims about it.

Conventions: Python exceptions are modelled with `Except`; Twisted deferred
chains are modelled as sequential `Except` pipelines (an `addErrback` is a
function on `Except` that maps handled `.error` values to `.ok`); datetimes are
minutes (or abstract `Nat` instants) since an epoch; external store and cloud
calls are oracles passed in as function arguments.
-/

namespace Otter

/-! ## otter/convergence/model.py -/

/-- The `CLBNodeCondition` constants (model.py lines 16-22). -/
inductive CLBNodeCondition where
  | enabled
  | draining
  | disabled
deriving DecidableEq, Repr

/-- The `CLBNodeType` constants (model.py lines 25-29). -/
inductive CLBNodeType where
  | primary
  | secondary
deriving DecidableEq, Repr

/-- The `CLBDescription` attributes (model.py lines 133-141): `lb_id : str`,
`port : int`, `weight : int` (default 1), `condition` (default ENABLED),
`type` (default PRIMARY). -/
structure CLBDescription where
  lb_id : String
  port : Int
  weight : Int := 1
  condition : CLBNodeCondition := .enabled
  typ : CLBNodeType := .primary
deriving DecidableEq, Repr

/-- The `RCv3Description` attributes (model.py lines 168-169): `pool_id : str`. -/
structure RCv3Description where
  pool_id : String
deriving DecidableEq, Repr

/-- The two `ILBDescription` implementers as a sum type. -/
inductive LBDescription where
  | clb (d : CLBDescription)
  | rcv3 (d : RCv3Description)
deriving DecidableEq, Repr

/-- Method `equivalent_definition` dispatched over the two implementers.
`CLBDescription.equivalent_definition` (model.py lines 156-165) is
`isinstance(other, CLBDescription) and other.lb_id == self.lb_id and
other.port == self.port`; `RCv3Description.equivalent_definition`
(model.py lines 176-184) is `isinstance(other, RCv3Description) and
other.pool_id == self.pool_id`. -/
def equivalent_definition : LBDescription → LBDescription → Bool
  | .clb s, .clb o => o.lb_id == s.lb_id && o.port == s.port
  | .clb _, .rcv3 _ => false
  | .rcv3 s, .rcv3 o => o.pool_id == s.pool_id
  | .rcv3 _, .clb _ => false

/-- The definition key named by the spec: the variant together with
`(lb_id, port)` for CLB or `pool_id` for RCv3. -/
def defKey : LBDescription → (String × Int) ⊕ String
  | .clb d => Sum.inl (d.lb_id, d.port)
  | .rcv3 d => Sum.inr d.pool_id

/-- Rewrite the non-definitional (cosmetic) attributes of a description:
weight, condition and type for CLB; the identity on RCv3. -/
def setCosmetic (d : LBDescription) (w : Int) (c : CLBNodeCondition)
    (t : CLBNodeType) : LBDescription :=
  match d with
  | .clb d => .clb { d with weight := w, condition := c, typ := t }
  | .rcv3 d => .rcv3 d

/-! ## otter/worker/launch_server_v1.py -/

/-- Class `APIError` (launch_server_v1.py lines 12-25): carries the HTTP response
code and body. -/
structure APIError where
  code : Nat
  body : String
deriving DecidableEq, Repr

/-- A stubbed HTTP response: the status code together with the body that
`treq.content` would produce for it. -/
structure Response where
  code : Nat
  body : String
deriving DecidableEq, Repr

/-- Function `check_success(response, success_codes)` (launch_server_v1.py lines 28-48):
if `response.code not in success_codes`, the body is fetched and
`APIError(response.code, body)` is raised; otherwise the response is returned
unchanged. -/
def check_success (response : Response) (success_codes : List Nat) :
    Except APIError Response :=
  if response.code ∉ success_codes then
    .error ⟨response.code, response.body⟩
  else
    .ok response

/-- Function `append_segments(uri, *segments)` (launch_server_v1.py lines 51-70):
strips trailing slashes from the base URI and joins the segments with `/`.
URL quoting of segments is modelled as the identity. -/
def append_segments (uri : String) (segments : List String) : String :=
  String.intercalate "/" (uri.dropRightWhile (· == '/') :: segments)

/-- An endpoint entry of a service-catalog service: a `region` and a
`publicURL` (the fields read by `endpoints` and `launch_server`). -/
structure Endpoint where
  region : String
  publicURL : String
deriving DecidableEq, Repr

/-- A service-catalog service: `name`, `type` and its endpoint list. -/
structure CatalogService where
  name : String
  typ : String
  endpoints : List Endpoint
deriving DecidableEq, Repr

/-- Python truthiness of an optional-string filter argument: `None` and the
empty string are falsy, so the guard `if f and f != v: continue` passes the
item whenever the filter is absent or empty, and otherwise requires equality. -/
def filterPass (f : Option String) (v : String) : Bool :=
  match f with
  | none => true
  | some s => if s.isEmpty then true else s == v

/-- Generator `endpoints(service_catalog, service_name, service_type, region)`
(launch_server_v1.py lines 212-234): for each service in catalog order, skip
it when a truthy `service_type` or `service_name` filter disagrees; for each
of its endpoints in order, skip it when a truthy `region` filter disagrees;
yield the rest. -/
def endpointsOf (service_catalog : List CatalogService)
    (service_name service_type region : Option String) : List Endpoint :=
  match service_catalog with
  | [] => []
  | service :: rest =>
      let tail := endpointsOf rest service_name service_type region
      if filterPass service_type service.typ && filterPass service_name service.name then
        service.endpoints.filter (fun e => filterPass region e.region) ++ tail
      else
        tail

/-- Errors raised by the Python runtime itself (as opposed to API errors). -/
inductive PyErr where
  | indexError
  | nameError (missing : String)
deriving DecidableEq, Repr

/-- The endpoint lookup performed by `launch_server` (launch_server_v1.py
lines 256-260): `list(endpoints(...))[0]`, an `IndexError` when the iterable
is empty. -/
def firstEndpoint (es : List Endpoint) : Except PyErr Endpoint :=
  match es with
  | [] => .error .indexError
  | e :: _ => .ok e

/-- The endpoints matching all supplied components of the
`(service_name, service_type, region)` filter, stated the way the spec does:
flatten the catalog to (service, endpoint) pairs in input order and keep
exactly those matching every supplied component (a component is supplied
when it is a non-empty string). -/
def specEndpoints (service_catalog : List CatalogService)
    (service_name service_type region : Option String) : List Endpoint :=
  ((service_catalog.flatMap (fun s => s.endpoints.map (fun e => (s, e)))).filter
    (fun p => filterPass service_name p.1.name && filterPass service_type p.1.typ
      && filterPass region p.2.region)).map (fun p => p.2)

/-- The add-node request issued by `add_to_load_balancer`
(launch_server_v1.py lines 164-190): a POST to
`{endpoint}/loadbalancers/{lb_id}/nodes` whose single node carries the
server's address, the config's port, condition ENABLED and type PRIMARY. -/
structure AddNodeRequest where
  path : String
  address : String
  port : Int
  condition : String
  typ : String
deriving DecidableEq, Repr

/-- A load-balancer config dictionary: the `loadBalancerId` and `port` keys
read by `add_to_load_balancer`. -/
structure LBConfig where
  loadBalancerId : Int
  port : Int
deriving DecidableEq, Repr

/-- The request value that `add_to_load_balancer(endpoint, auth_token,
lb_config, ip_address)` posts (launch_server_v1.py lines 177-188). -/
def addToLoadBalancerRequest (endpoint : String) (lb_config : LBConfig)
    (ip_address : String) : AddNodeRequest :=
  { path := append_segments endpoint ["loadbalancers", toString lb_config.loadBalancerId, "nodes"]
    address := ip_address
    port := lb_config.port
    condition := "ENABLED"
    typ := "PRIMARY" }

/-- Twisted `gatherResults` over already-determined deferred outcomes with
`consumeErrors=True`: succeeds with the list of results when every deferred
succeeded, and otherwise fails with the first failure. -/
def gatherResults {ε α : Type} : List (Except ε α) → Except ε (List α)
  | [] => .ok []
  | .error e :: _ => .error e
  | .ok a :: rest =>
      match gatherResults rest with
      | .error e => .error e
      | .ok as => .ok (a :: as)

/-- Function `add_to_load_balancers(endpoint, auth_token, lb_configs, ip_address)`
(launch_server_v1.py lines 193-209): one `add_to_load_balancer` per config
(every request is issued up front by the list comprehension), gathered with
`consumeErrors=True`. The cloud's response to each request is supplied by the
`cloud` oracle. Returns the issued requests and the combined outcome. -/
def add_to_load_balancers (endpoint : String) (lb_configs : List LBConfig)
    (ip_address : String) (cloud : AddNodeRequest → Except APIError Response) :
    List AddNodeRequest × Except APIError (List Response) :=
  let requests := lb_configs.map (fun c => addToLoadBalancerRequest endpoint c ip_address)
  (requests, gatherResults (requests.map cloud))

/-- Function `wait_for_status(server_endpoint, auth_token, server_id, expected_status,
interval)` (launch_server_v1.py lines 103-143), abstracted over the sequence
of statuses the successive `server_details` polls observe: the result fires
with the index of the first poll whose status equals `expected_status`
(`none` while no poll has matched — the code has no timeout and no handling
of the ERROR status, both marked `@TODO`). -/
def wait_for_status (expected_status : String) : List String → Option Nat
  | [] => none
  | s :: rest =>
      if s == expected_status then some 0
      else (wait_for_status expected_status rest).map (· + 1)

/-- Outcomes of the waiting loop as the claim describes it. -/
inductive WaitOutcome where
  | success (polls : Nat)
  | fatalError (polls : Nat)
  | timedOut
deriving DecidableEq, Repr

/-- The claim's version of the wait loop, for comparison: polling stops
fatally at an observed ERROR status, and an overall timeout (here a bound on
the number of polls) cuts the wait off. -/
def waitForStatusClaim (expected_status : String) (timeoutPolls : Nat) :
    List String → WaitOutcome
  | [] => .timedOut
  | s :: rest =>
      if timeoutPolls == 0 then .timedOut
      else if s == "ERROR" then .fatalError 0
      else if s == expected_status then .success 0
      else
        match waitForStatusClaim expected_status (timeoutPolls - 1) rest with
        | .success n => .success (n + 1)
        | .fatalError n => .fatalError (n + 1)
        | .timedOut => .timedOut

/-! ## otter/scheduler.py -/

/-- A scheduler event dict as stored and fetched (`tenantId`, `groupId`,
`policyId`, `trigger`, `cron`; scheduler.py line 172 and lines 153-156).
`cron` is `none` for a one-shot event; Python would also treat an empty cron
string as falsy. -/
structure Event where
  tenantId : String
  groupId : String
  policyId : String
  trigger : Nat
  cron : Option String
deriving DecidableEq, Repr

/-- Python truthiness of the `event['cron']` value: `None` and the empty
string are falsy. -/
def cronTruthy : Option String → Bool
  | none => false
  | some s => !s.isEmpty

/-- The failures that `group.modify_state(maybe_execute_scaling_policy ...)`
can produce, plus the scheduler's own runtime errors; `storeError` stands for
any other failure (store unavailable etc.). -/
inductive SchedErr where
  | cannotExecutePolicy
  | noSuchPolicy
  | noSuchScalingGroup
  | nameError (missing : String)
  | storeError
deriving DecidableEq, Repr

/-- The outcome of one policy execution, supplied per event by an oracle. -/
abbrev ExecOutcome : Type := Except SchedErr Unit

/-- Modelled from the spec: `otter.util.deferredutils.ignore_and_log` is not
under src; per its name and call site (scheduler.py line 179) it is an
errback that traps the given error kind, logs it, and absorbs it (the
deferred continues successfully); other failures pass through. -/
def ignoreAndLog (trapped : SchedErr) : Except SchedErr Unit → Except SchedErr Unit
  | .ok a => .ok a
  | .error e => if e == trapped then .ok () else .error e

/-- The `collect_deleted_policy` errback (scheduler.py lines 181-183):
`failure.trap(NoSuchScalingGroupError, NoSuchPolicyError)` re-raises any
other failure; on a trapped failure the policy id is added to
`deleted_policy_ids` and the errback returns `None` (absorbing the failure). -/
def collectDeletedPolicy (policy_id : String) (deleted_policy_ids : List String) :
    Except SchedErr Unit → Except SchedErr Unit × List String
  | .ok a => (.ok a, deleted_policy_ids)
  | .error e =>
      if e == .noSuchScalingGroup || e == .noSuchPolicy then
        (.ok (), if policy_id ∈ deleted_policy_ids then deleted_policy_ids
                 else policy_id :: deleted_policy_ids)
      else (.error e, deleted_policy_ids)

/-- The final `log.err` errback: logs and absorbs any failure. -/
def logErrAbsorb {α : Type} : Except SchedErr α → Except SchedErr (Option α)
  | .ok a => .ok (some a)
  | .error _ => .ok none

/-- Method `SchedulerService.execute_event(log, event, deleted_policy_ids)`
(scheduler.py lines 162-187): run the policy (outcome given by the oracle),
then the errback chain `ignore_and_log CannotExecutePolicyError`;
`collect_deleted_policy`; `log.err`. Returns the deferred's final outcome and
the updated `deleted_policy_ids` set. -/
def execute_event (outcome : ExecOutcome) (event : Event)
    (deleted_policy_ids : List String) :
    Except SchedErr (Option Unit) × List String :=
  let d1 := ignoreAndLog .cannotExecutePolicy outcome
  let d2 := collectDeletedPolicy event.policyId deleted_policy_ids d1
  (logErrAbsorb d2.1, d2.2)

/-- The `deleted_policy_ids` set after all the per-event deferreds of one
batch have run (scheduler.py lines 136-142). -/
def deletedPolicyIds (batch : List (Event × ExecOutcome)) : List String :=
  batch.foldl (fun deleted p => (execute_event p.2 p.1 deleted).2) []

/-- The `new_cron_event` list built by the loop of `add_cron_events`
(scheduler.py lines 152-156): events whose `cron` is truthy and whose
`policyId` is not in `deleted_policy_ids`, each with `trigger` replaced by
`next_cron_occurrence(cron)` (the occurrence oracle `nextOcc` stands for
croniter evaluated at utcnow). -/
def newCronEvents (nextOcc : String → Nat) (deleted_policy_ids : List String) :
    List Event → List Event
  | [] => []
  | event :: rest =>
      if cronTruthy event.cron && event.policyId ∉ deleted_policy_ids then
        { event with trigger := nextOcc (event.cron.getD "") }
          :: newCronEvents nextOcc deleted_policy_ids rest
      else
        newCronEvents nextOcc deleted_policy_ids rest

/-- Method `SchedulerService.add_cron_events(log, events, deleted_policy_ids)`
(scheduler.py lines 145-160): on an empty list it returns the list; otherwise
it builds `new_cron_event` and then, at line 158, evaluates
`len(new_cron_events)` — a name that was never bound (the local is
`new_cron_event`) — so a `NameError` is raised before `store.add_cron_events`
is ever called. -/
def add_cron_events (nextOcc : String → Nat) (events : List Event)
    (deleted_policy_ids : List String) : Except SchedErr (List Event) :=
  if events.isEmpty then .ok events
  else
    let _new_cron_event := newCronEvents nextOcc deleted_policy_ids events
    .error (.nameError "new_cron_events")

/-- Method `SchedulerService.process_events(events, now)` (scheduler.py lines
123-143): empty batches return immediately; otherwise every event is executed
(building `deleted_policy_ids`) and then `add_cron_events` runs. The deferred
fires with the original event list on success. -/
def process_events (nextOcc : String → Nat) (batch : List (Event × ExecOutcome)) :
    Except SchedErr (List Event) :=
  let events := batch.map (·.1)
  if events.isEmpty then .ok events
  else
    let deleted := deletedPolicyIds batch
    (add_cron_events nextOcc events deleted).map (fun _ => events)

/-- One `store.fetch_and_delete` result: either a failure or the batch of
fetched events together with each event's execution outcome. -/
abbrev FetchResult : Type := Except SchedErr (List (Event × ExecOutcome))

/-- The `_do_check` loop of `check_for_events_in_bucket` (scheduler.py lines
102-121), driven by the list of successive store fetch results: each
iteration runs `fetch_and_delete`, `process_events`, `check_for_more` (loop
again only when the processed batch has exactly `batchsize` events and is
non-empty), with `log.err` absorbing any failure of the chain. Returns the
number of `fetch_and_delete` calls performed and the final deferred outcome. -/
def doCheck (nextOcc : String → Nat) (batchsize : Nat) :
    List FetchResult → Nat × Except SchedErr (Option Unit)
  | [] => (0, .ok (some ()))
  | .error e :: _ => (1, logErrAbsorb (α := Unit) (.error e))
  | .ok batch :: rest =>
      match process_events nextOcc batch with
      | .error e => (1, logErrAbsorb (α := Unit) (.error e))
      | .ok events =>
          if !events.isEmpty && events.length == batchsize then
            let r := doCheck nextOcc batchsize rest
            (r.1 + 1, r.2)
          else
            (1, .ok (some ()))

/-- The partition states a scheduler instance can be in w.r.t. its
ZooKeeper set partitioner (scheduler.py lines 85-96). -/
inductive PartitionState where
  | notStarted
  | allocating
  | release
  | failed
  | acquired (buckets : List Nat)
deriving DecidableEq, Repr

/-- What one tick of `SchedulerService.check_for_events(batchsize)`
(scheduler.py lines 81-100) does before any per-bucket work: the allocating /
release / failed branches return without touching the store; in the acquired
branch the method assigns `utcnow = datetime.utcnow()` (line 97) but the
list comprehension at line 100 reads the unbound name `now`, so as soon as
there is at least one owned bucket a `NameError` is raised synchronously and
escapes the tick. An empty bucket set never evaluates the comprehension body,
so it returns `gatherResults([])`. -/
def check_for_events (partition : PartitionState) : Except SchedErr Unit :=
  match partition with
  | .notStarted => .ok ()
  | .allocating => .ok ()
  | .release => .ok ()
  | .failed => .ok ()
  | .acquired buckets =>
      if buckets.isEmpty then .ok ()
      else .error (.nameError "now")

/-! ## next_cron_occurrence (scheduler.py lines 21-25)

`next_cron_occurrence(cron)` delegates entirely to the external `croniter`
library: `croniter(cron, start_time=datetime.utcnow()).get_next()`. The cron
semantics below are modelled from the spec: a standard 5-field cron
expression (minute, hour, day-of-month, month, day-of-week), and the
requirement that the result be the earliest occurrence strictly greater than
the reference time. -/

/-- A field of a parsed 5-field cron expression: `none` is `*`
(unrestricted); `some vs` restricts the field to the listed values. -/
abbrev CronField : Type := Option (List Nat)

/-- A parsed standard 5-field cron expression. -/
structure CronExpr where
  minute : CronField
  hour : CronField
  dom : CronField
  month : CronField
  dow : CronField

/-- Civil date `(year, month, day)` of a day count since 1970-01-01
(standard days-to-civil conversion on the 400-year Gregorian cycle). -/
def civilFromDays (days : Nat) : Nat × Nat × Nat :=
  let z := days + 719468
  let era := z / 146097
  let doe := z % 146097
  let yoe := (doe - doe / 1460 + doe / 36524 - doe / 146096) / 365
  let doy := doe - (365 * yoe + yoe / 4 - yoe / 100)
  let mp := (5 * doy + 2) / 153
  let d := doy - (153 * mp + 2) / 5 + 1
  let m := if mp < 10 then mp + 3 else mp - 9
  (if m ≤ 2 then era * 400 + yoe + 1 else era * 400 + yoe, m, d)

/-- Whether a value satisfies a cron field. -/
def fieldSat (f : CronField) (v : Nat) : Bool :=
  match f with
  | none => true
  | some vs => vs.contains v

/-- Whether the minute instant `t` (minutes since 1970-01-01T00:00 UTC)
matches the cron expression. Time fields are the instant's minute, hour,
civil day-of-month, civil month, and day-of-week (0 = Sunday; 1970-01-01 was
a Thursday). Per standard cron, when both day-of-month and day-of-week are
restricted the day matches when either does. -/
def cronMatches (c : CronExpr) (t : Nat) : Bool :=
  let days := t / 1440
  let date := civilFromDays days
  let wd := (days + 4) % 7
  let daySat :=
    match c.dom, c.dow with
    | none, none => true
    | some ds, none => ds.contains date.2.2
    | none, some ws => ws.contains wd
    | some ds, some ws => ds.contains date.2.2 || ws.contains wd
  fieldSat c.minute (t % 60) && fieldSat c.hour (t / 60 % 24) &&
    fieldSat c.month date.2.1 && daySat

/-- Scan minute instants `t, t+1, ...` (up to `fuel` of them) for the first
one matching the cron expression. -/
def searchFrom (c : CronExpr) : Nat → Nat → Option Nat
  | _, 0 => none
  | t, fuel + 1 => if cronMatches c t then some t else searchFrom c (t + 1) fuel

/-- Function `next_cron_occurrence(cron)` with `now` the `datetime.utcnow()` the
source captures as the croniter start time: the first matching minute
instant strictly after `now`. `fuel` bounds the scan so the search is total;
a valid cron expression with any future occurrence is found with enough
fuel. -/
def next_cron_occurrence (c : CronExpr) (now fuel : Nat) : Option Nat :=
  searchFrom c (now + 1) fuel

/-! ## otter/util/pure_http.py

This module is not under src (only its tests in
otter/test/util/test_pure_http.py are), so `effect_on_response` and
`add_effect_on_response` are modelled from the spec. Side effects are
modelled as state transformers on an explicit world value, and a request
function maps (method, url) and a world to a response and a world. -/

/-- Modelled from the spec: `effect_on_response(codes, effect, response)`
(otter/util/pure_http.py, absent from src) — "if response code is in
`codes`, runs `side_effect` then propagates the response unchanged";
otherwise "the result is returned immediately and the provided effect is not
invoked" (EffectOnResponseTests lines 169-188). -/
def effect_on_response {σ : Type} (codes : List Nat) (side_effect : σ → σ)
    (response : Response) (w : σ) : Response × σ :=
  if response.code ∈ codes then (response, side_effect w)
  else (response, w)

/-- Modelled from the spec: `add_effect_on_response(effect, codes, request_fn)`
(otter/util/pure_http.py, absent from src) — middleware that invokes the
wrapped request function and applies `effect_on_response` to its response
(EffectOnResponseTests lines 190-197). -/
def add_effect_on_response {σ : Type} (side_effect : σ → σ) (codes : List Nat)
    (request_fn : String → String → σ → Response × σ)
    (method url : String) (w : σ) : Response × σ :=
  let r := request_fn method url w
  effect_on_response codes side_effect r.1 r.2

/-! ## Concrete inputs used by the witnesses -/

/-- An outcome is one of the two deleted-entity errors. -/
def isNoSuch (o : ExecOutcome) : Prop :=
  o = .error .noSuchPolicy ∨ o = .error .noSuchScalingGroup

/-- A concrete three-event batch: the first event's policy has been deleted
(NoSuchPolicyError), a later event shares the same policy id, and a third
event belongs to a different, live policy. All three carry cron entries. -/
def witnessBatch : List (Event × ExecOutcome) :=
  [(⟨"t1", "g1", "p1", 0, some "c1"⟩, .error .noSuchPolicy),
   (⟨"t1", "g1", "p1", 5, some "c1"⟩, .ok ()),
   (⟨"t1", "g2", "p2", 0, some "c2"⟩, .ok ())]

/-! ## Helper lemmas -/

/-- Whether an `Except` value is a success. -/
def isOkE {ε α : Type} : Except ε α → Bool
  | .ok _ => true
  | .error _ => false

theorem gatherResults_isOk {ε α : Type} (l : List (Except ε α)) :
    isOkE (gatherResults l) = true ↔ ∀ r ∈ l, isOkE r = true := by
  induction l with
  | nil => simp [gatherResults, isOkE]
  | cons r rest ih =>
      cases r with
      | error e => simp [gatherResults, isOkE]
      | ok a =>
          cases hg : gatherResults rest with
          | error e =>
              rw [hg] at ih
              simp only [gatherResults, hg, isOkE, List.mem_cons, Bool.false_eq_true,
                false_iff, not_forall] at ih ⊢
              obtain ⟨r, hr, hne⟩ := ih
              exact ⟨r, Or.inr hr, hne⟩
          | ok as =>
              rw [hg] at ih
              simp only [gatherResults, hg, isOkE, List.mem_cons, true_iff] at ih ⊢
              intro r hr
              rcases hr with h | h
              · subst h; rfl
              · exact ih r h

theorem gatherResults_all_ok {ε α β : Type} (g : β → Except ε α) (v : β → α)
    (l : List β) (h : ∀ x ∈ l, g x = .ok (v x)) :
    gatherResults (l.map g) = .ok (l.map v) := by
  induction l with
  | nil => rfl
  | cons x rest ih =>
      have hx := h x (List.mem_cons_self x rest)
      have hrest := ih (fun y hy => h y (List.mem_cons_of_mem x hy))
      simp only [List.map_cons, hx, gatherResults, hrest]

theorem collectDeletedPolicy_mono (pid2 : String) (deleted : List String)
    (r : Except SchedErr Unit) (pid : String) (h : pid ∈ deleted) :
    pid ∈ (collectDeletedPolicy pid2 deleted r).2 := by
  rcases r with err | a
  · simp only [collectDeletedPolicy]
    split
    · split
      · exact h
      · exact List.mem_cons_of_mem _ h
    · exact h
  · exact h

theorem collectDeletedPolicy_adds (pid2 : String) (deleted : List String)
    (err : SchedErr)
    (h : (err == SchedErr.noSuchScalingGroup || err == SchedErr.noSuchPolicy) = true) :
    pid2 ∈ (collectDeletedPolicy pid2 deleted (.error err)).2 := by
  simp only [collectDeletedPolicy, h, if_true]
  split
  · assumption
  · exact List.mem_cons_self _ _

theorem execute_event_deleted_mono (o : ExecOutcome) (e : Event)
    (deleted : List String) (pid : String) (h : pid ∈ deleted) :
    pid ∈ (execute_event o e deleted).2 :=
  collectDeletedPolicy_mono e.policyId deleted (ignoreAndLog .cannotExecutePolicy o) pid h

theorem execute_event_adds (o : ExecOutcome) (e : Event)
    (deleted : List String) (h : isNoSuch o) :
    e.policyId ∈ (execute_event o e deleted).2 := by
  rcases h with h | h <;> subst h
  · exact collectDeletedPolicy_adds e.policyId deleted .noSuchPolicy rfl
  · exact collectDeletedPolicy_adds e.policyId deleted .noSuchScalingGroup rfl

theorem foldl_deleted_mono (l : List (Event × ExecOutcome)) (acc : List String)
    (pid : String) (h : pid ∈ acc) :
    pid ∈ l.foldl (fun deleted p => (execute_event p.2 p.1 deleted).2) acc := by
  induction l generalizing acc with
  | nil => exact h
  | cons p rest ih => exact ih _ (execute_event_deleted_mono p.2 p.1 acc pid h)

theorem mem_deletedPolicyIds (batch : List (Event × ExecOutcome))
    (e : Event) (o : ExecOutcome) (hmem : (e, o) ∈ batch) (h : isNoSuch o) :
    e.policyId ∈ deletedPolicyIds batch := by
  rw [deletedPolicyIds]
  generalize hacc : ([] : List String) = acc
  clear hacc
  induction batch generalizing acc with
  | nil => cases hmem
  | cons p rest ih =>
      rcases List.mem_cons.mp hmem with hp | hp
      · subst hp
        exact foldl_deleted_mono rest _ _ (execute_event_adds o e acc h)
      · exact ih hp _

theorem newCronEvents_not_deleted (nextOcc : String → Nat) (deleted : List String)
    (events : List Event) :
    ∀ e2 ∈ newCronEvents nextOcc deleted events, e2.policyId ∉ deleted := by
  induction events with
  | nil => intro e2 h2; cases h2
  | cons e rest ih =>
      intro e2 h2
      rw [newCronEvents] at h2
      split at h2
      case isTrue hcond =>
        simp only [Bool.and_eq_true, decide_eq_true_eq] at hcond
        rcases List.mem_cons.mp h2 with he | he
        · subst he
          exact hcond.2
        · exact ih e2 he
      case isFalse hcond =>
        exact ih e2 h2

theorem process_events_ok_empty (nextOcc : String → Nat)
    (batch : List (Event × ExecOutcome)) (events : List Event)
    (h : process_events nextOcc batch = .ok events) : events = [] := by
  rw [process_events] at h
  split at h
  case isTrue hemp =>
    cases h
    exact List.isEmpty_iff.mp hemp
  case isFalse hemp =>
    simp only [add_cron_events, if_neg hemp, Except.map] at h
    exact Except.noConfusion h

theorem doCheck_ok (nextOcc : String → Nat) (batchsize : Nat)
    (fetches : List FetchResult) :
    isOkE (doCheck nextOcc batchsize fetches).2 = true := by
  induction fetches with
  | nil => rfl
  | cons fetch rest ih =>
      rcases fetch with e | batch
      · rfl
      · rw [doCheck]
        cases hp : process_events nextOcc batch with
        | error e => simp [isOkE, logErrAbsorb]
        | ok events =>
            simp only
            split
            · simpa using ih
            · rfl

theorem doCheck_calls_le_one (nextOcc : String → Nat) (batchsize : Nat)
    (fetches : List FetchResult) :
    (doCheck nextOcc batchsize fetches).1 ≤ 1 := by
  cases fetches with
  | nil => exact Nat.zero_le 1
  | cons fetch rest =>
      rcases fetch with e | batch
      · exact Nat.le_refl 1
      · rw [doCheck]
        cases hp : process_events nextOcc batch with
        | error e => simp
        | ok events =>
            have hnil := process_events_ok_empty nextOcc batch events hp
            subst hnil
            simp [hp]

theorem specEndpoints_cons (s : CatalogService) (rest : List CatalogService)
    (sn st r : Option String) :
    specEndpoints (s :: rest) sn st r =
      (s.endpoints.filter (fun e => filterPass sn s.name && filterPass st s.typ &&
        filterPass r e.region)) ++ specEndpoints rest sn st r := by
  simp only [specEndpoints, List.flatMap_cons, List.filter_append, List.map_append]
  congr 1
  induction s.endpoints with
  | nil => rfl
  | cons e tl ihl =>
      cases hpe : (filterPass sn s.name && filterPass st s.typ && filterPass r e.region) <;>
        simp [List.filter_cons, hpe, ihl]

theorem endpointsOf_eq_specEndpoints (catalog : List CatalogService)
    (sn st r : Option String) :
    endpointsOf catalog sn st r = specEndpoints catalog sn st r := by
  induction catalog with
  | nil => rfl
  | cons s rest ih =>
      rw [specEndpoints_cons]
      cases hn : filterPass sn s.name <;> cases ht : filterPass st s.typ <;>
        simp [endpointsOf, hn, ht, ih]

theorem searchFrom_spec (c : CronExpr) :
    ∀ (fuel t r : Nat), searchFrom c t fuel = some r →
      t ≤ r ∧ cronMatches c r = true ∧
        ∀ s, t ≤ s → s < r → cronMatches c s = false := by
  intro fuel
  induction fuel with
  | zero => intro t r h; cases h
  | succ n ih =>
      intro t r h
      rw [searchFrom] at h
      split at h
      case isTrue hm =>
        cases h
        exact ⟨Nat.le_refl t, hm,
          fun s hs1 hs2 => absurd (Nat.lt_of_le_of_lt hs1 hs2) (Nat.lt_irrefl t)⟩
      case isFalse hm =>
        obtain ⟨h1, h2, h3⟩ := ih (t + 1) r h
        refine ⟨Nat.le_trans (Nat.le_succ t) h1, h2, ?_⟩
        intro s hs1 hs2
        rcases Nat.eq_or_lt_of_le hs1 with he | hl
        · subst he
          exact Bool.not_eq_true _ ▸ Bool.eq_false_iff.mpr hm
        · exact h3 s hl hs2

/-! ## Claim theorems -/

/-- C5: for every pair of load-balancer descriptions `a` and `b`,
`equivalent_definition a b` holds iff `a` and `b` are the same variant with
the same `(lb_id, port)` (CLB) or the same `pool_id` (RCv3), and rewriting
weight, condition and type on either side never changes the result. -/
theorem equivalent_definition_iff_defKey :
    ∀ a b : LBDescription,
      (equivalent_definition a b = true ↔ defKey a = defKey b) ∧
      (∀ w c t w2 c2 t2,
        equivalent_definition (setCosmetic a w c t) (setCosmetic b w2 c2 t2) =
          equivalent_definition a b) := by
  intro a b
  constructor
  · cases a with
    | clb s =>
        cases b with
        | clb o =>
            simp only [equivalent_definition, defKey, Bool.and_eq_true, beq_iff_eq,
              Sum.inl.injEq, Prod.mk.injEq]
            exact ⟨fun h => ⟨h.1.symm, h.2.symm⟩, fun h => ⟨h.1.symm, h.2.symm⟩⟩
        | rcv3 o => simp [equivalent_definition, defKey]
    | rcv3 s =>
        cases b with
        | clb o => simp [equivalent_definition, defKey]
        | rcv3 o =>
            simp only [equivalent_definition, defKey, beq_iff_eq, Sum.inr.injEq]
            exact eq_comm
  · intro w c t w2 c2 t2
    cases a <;> cases b <;> simp [equivalent_definition, setCosmetic]

/-- C7: `check_success` fails with an `APIError` carrying exactly the
response's status code and body iff the response code is not in the success
set; when the code is in the set the response is returned unchanged. -/
theorem check_success_APIError_iff :
    ∀ (response : Response) (success_codes : List Nat),
      (check_success response success_codes = .error ⟨response.code, response.body⟩ ↔
        response.code ∉ success_codes) ∧
      (response.code ∈ success_codes →
        check_success response success_codes = .ok response) ∧
      (∀ err, check_success response success_codes = .error err →
        err.code = response.code ∧ err.body = response.body) := by
  intro response success_codes
  by_cases h : response.code ∈ success_codes <;>
    simp [check_success, h]

/-- C7 witness: `check_success` at a 404 outside the success set and at a
200 inside it. -/
theorem check_success_APIError_iff_witness :
    check_success ⟨404, "not found"⟩ [200] = .error ⟨404, "not found"⟩ ∧
    check_success ⟨200, "okay"⟩ [200] = .ok ⟨200, "okay"⟩ :=
  ⟨(check_success_APIError_iff ⟨404, "not found"⟩ [200]).1.mpr (by decide),
   (check_success_APIError_iff ⟨200, "okay"⟩ [200]).2.1 (by decide)⟩

/-- C9: `endpoints` yields exactly the catalog endpoints matching every
supplied component of the `(service_name, service_type, region)` filter, in
catalog order, and the `launch_server` call site fails exactly when the
result is empty. -/
theorem endpoints_filter_and_empty_error :
    ∀ (service_catalog : List CatalogService)
      (service_name service_type region : Option String),
      endpointsOf service_catalog service_name service_type region =
        specEndpoints service_catalog service_name service_type region ∧
      (isOkE (firstEndpoint
          (endpointsOf service_catalog service_name service_type region)) = false ↔
        endpointsOf service_catalog service_name service_type region = []) := by
  intro catalog sn st r
  refine ⟨endpointsOf_eq_specEndpoints catalog sn st r, ?_⟩
  cases h : endpointsOf catalog sn st r <;> simp [firstEndpoint, isOkE]

/-- C9 witness: the claim theorem at a concrete two-service catalog with a
name-and-region filter. -/
theorem endpoints_filter_and_empty_error_witness :
    endpointsOf
        [⟨"cloudServersOpenStack", "compute", [⟨"ORD", "u1"⟩, ⟨"DFW", "u2"⟩]⟩,
         ⟨"cloudLoadBalancers", "rax:load-balancer", [⟨"ORD", "u3"⟩]⟩]
        (some "cloudServersOpenStack") none (some "ORD") =
      specEndpoints
        [⟨"cloudServersOpenStack", "compute", [⟨"ORD", "u1"⟩, ⟨"DFW", "u2"⟩]⟩,
         ⟨"cloudLoadBalancers", "rax:load-balancer", [⟨"ORD", "u3"⟩]⟩]
        (some "cloudServersOpenStack") none (some "ORD") ∧
    (isOkE (firstEndpoint
        (endpointsOf
          [⟨"cloudServersOpenStack", "compute", [⟨"ORD", "u1"⟩, ⟨"DFW", "u2"⟩]⟩,
           ⟨"cloudLoadBalancers", "rax:load-balancer", [⟨"ORD", "u3"⟩]⟩]
          (some "cloudServersOpenStack") none (some "ORD"))) = false ↔
      endpointsOf
          [⟨"cloudServersOpenStack", "compute", [⟨"ORD", "u1"⟩, ⟨"DFW", "u2"⟩]⟩,
           ⟨"cloudLoadBalancers", "rax:load-balancer", [⟨"ORD", "u3"⟩]⟩]
          (some "cloudServersOpenStack") none (some "ORD") = []) :=
  endpoints_filter_and_empty_error
    [⟨"cloudServersOpenStack", "compute", [⟨"ORD", "u1"⟩, ⟨"DFW", "u2"⟩]⟩,
     ⟨"cloudLoadBalancers", "rax:load-balancer", [⟨"ORD", "u3"⟩]⟩]
    (some "cloudServersOpenStack") none (some "ORD")

/-- C10: `add_to_load_balancers` issues exactly one add-node request per
config for the given IP address; its combined deferred succeeds iff every
per-config add succeeded, in which case it carries the per-config responses
in config order — there is no partial-success result. -/
theorem add_to_load_balancers_all_or_nothing :
    ∀ (endpoint ip : String) (lb_configs : List LBConfig)
      (cloud : AddNodeRequest → Except APIError Response),
      (add_to_load_balancers endpoint lb_configs ip cloud).1 =
        lb_configs.map (fun c => addToLoadBalancerRequest endpoint c ip) ∧
      (isOkE (add_to_load_balancers endpoint lb_configs ip cloud).2 = true ↔
        ∀ c ∈ lb_configs,
          isOkE (cloud (addToLoadBalancerRequest endpoint c ip)) = true) ∧
      ∀ resp : LBConfig → Response,
        (∀ c ∈ lb_configs,
          cloud (addToLoadBalancerRequest endpoint c ip) = .ok (resp c)) →
        (add_to_load_balancers endpoint lb_configs ip cloud).2 =
          .ok (lb_configs.map resp) := by
  intro endpoint ip configs cloud
  refine ⟨rfl, ?_, ?_⟩
  · simp only [add_to_load_balancers, List.map_map]
    rw [gatherResults_isOk]
    simp [Function.comp]
  · intro resp h
    simp only [add_to_load_balancers, List.map_map]
    exact gatherResults_all_ok _ resp configs h

/-- C10 witness: a single config all of whose adds succeed yields the
per-config responses; two configs of which the second fails yield a combined
failure. -/
theorem add_to_load_balancers_all_or_nothing_witness :
    (add_to_load_balancers "http://lb" [⟨96815, 8080⟩] "10.0.0.1"
        (fun _ => .ok ⟨200, "added"⟩)).2 = .ok [⟨200, "added"⟩] ∧
    isOkE (add_to_load_balancers "http://lb" [⟨96815, 8080⟩, ⟨96816, 8081⟩] "10.0.0.1"
        (fun q => if q.port = 8080 then .ok ⟨200, "added"⟩
                  else .error ⟨422, "pending update"⟩)).2 = false := by
  constructor
  · exact (add_to_load_balancers_all_or_nothing "http://lb" "10.0.0.1" [⟨96815, 8080⟩]
      (fun _ => .ok ⟨200, "added"⟩)).2.2 (fun _ => ⟨200, "added"⟩) (fun _ _ => rfl)
  · have h := (add_to_load_balancers_all_or_nothing "http://lb" "10.0.0.1"
      [⟨96815, 8080⟩, ⟨96816, 8081⟩]
      (fun q => if q.port = 8080 then .ok ⟨200, "added"⟩
                else .error ⟨422, "pending update"⟩)).2.1
    cases hv : isOkE (add_to_load_balancers "http://lb" [⟨96815, 8080⟩, ⟨96816, 8081⟩]
        "10.0.0.1"
        (fun q => if q.port = 8080 then .ok ⟨200, "added"⟩
                  else .error ⟨422, "pending update"⟩)).2 with
    | false => rfl
    | true =>
        have hall := h.mp hv ⟨96816, 8081⟩ (by simp)
        simp [addToLoadBalancerRequest, isOkE] at hall

/-- C1: in every dequeued batch, an event whose execution fails with
NoSuchPolicyError or NoSuchScalingGroupError is absorbed silently (its
per-event deferred ends successfully), its policy id joins the per-batch
`deleted_policy_ids` tombstone set, and the cron-rescheduling pass skips
every event of the batch whose policy id is in that set — in particular no
event of the deleted policy is rescheduled, cron entry or not. -/
theorem scheduler_tombstone_set :
    ∀ (nextOcc : String → Nat) (batch : List (Event × ExecOutcome))
      (event : Event) (outcome : ExecOutcome),
      (event, outcome) ∈ batch → isNoSuch outcome →
      (∀ deleted, (execute_event outcome event deleted).1 = .ok (some ())) ∧
      event.policyId ∈ deletedPolicyIds batch ∧
      (∀ e2 ∈ newCronEvents nextOcc (deletedPolicyIds batch) (batch.map (·.1)),
        e2.policyId ∉ deletedPolicyIds batch) ∧
      ∀ e2 ∈ newCronEvents nextOcc (deletedPolicyIds batch) (batch.map (·.1)),
        e2.policyId ≠ event.policyId := by
  intro nextOcc batch event outcome hmem hns
  have hdel : event.policyId ∈ deletedPolicyIds batch :=
    mem_deletedPolicyIds batch event outcome hmem hns
  refine ⟨?_, hdel, newCronEvents_not_deleted nextOcc _ _, ?_⟩
  · intro deleted
    rcases hns with h | h <;> subst h <;> rfl
  · intro e2 h2 heq
    exact newCronEvents_not_deleted nextOcc _ _ e2 h2 (by rw [heq]; exact hdel)

/-- C1 witness: the claim theorem at `witnessBatch`, whose first event hits
NoSuchPolicyError: p1 is tombstoned and no p1 event is rescheduled despite
both carrying cron entries. -/
theorem scheduler_tombstone_set_witness :
    (∀ deleted,
      (execute_event (.error .noSuchPolicy) ⟨"t1", "g1", "p1", 0, some "c1"⟩ deleted).1 =
        .ok (some ())) ∧
    (Event.mk "t1" "g1" "p1" 0 (some "c1")).policyId ∈ deletedPolicyIds witnessBatch ∧
    (∀ e2 ∈ newCronEvents (fun _ => 60) (deletedPolicyIds witnessBatch)
        (witnessBatch.map (·.1)),
      e2.policyId ∉ deletedPolicyIds witnessBatch) ∧
    ∀ e2 ∈ newCronEvents (fun _ => 60) (deletedPolicyIds witnessBatch)
        (witnessBatch.map (·.1)),
      e2.policyId ≠ (Event.mk "t1" "g1" "p1" 0 (some "c1")).policyId :=
  scheduler_tombstone_set (fun _ => 60) witnessBatch
    ⟨"t1", "g1", "p1", 0, some "c1"⟩ (.error .noSuchPolicy)
    (List.mem_cons_self _ _) (Or.inl rfl)

/-- C2: the claim fails on the code. With the partition acquired and at
least one owned bucket, `check_for_events` evaluates the unbound name `now`
in the comprehension at scheduler.py line 100 (the local assigned at line 97
is `utcnow`), so a NameError escapes the tick synchronously. The per-bucket
machinery below that line would indeed confine failures: the deferred
returned by the bucket check always ends successfully, whatever the store
returns. -/
theorem tick_nameError_escapes :
    check_for_events (.acquired [1]) = .error (.nameError "now") ∧
    ∀ (nextOcc : String → Nat) (batchsize : Nat) (fetches : List FetchResult),
      isOkE (doCheck nextOcc batchsize fetches).2 = true :=
  ⟨rfl, doCheck_ok⟩

/-- C3: whenever the bounded scan finds an occurrence,
`next_cron_occurrence` returns the earliest instant matching the cron
expression that is strictly greater than `now`. -/
theorem next_cron_occurrence_earliest :
    ∀ (c : CronExpr) (now fuel t : Nat),
      next_cron_occurrence c now fuel = some t →
      now < t ∧ cronMatches c t = true ∧
        ∀ s, now < s → s < t → cronMatches c s = false := by
  intro c now fuel t h
  obtain ⟨h1, h2, h3⟩ := searchFrom_spec c fuel (now + 1) t h
  exact ⟨h1, h2, fun s hs1 hs2 => h3 s hs1 hs2⟩

/-- C3 witness: for the every-minute cron expression and `now = 7`, the next
occurrence is 8; it matches, is strictly after 7, and nothing lies between. -/
theorem next_cron_occurrence_earliest_witness :
    7 < 8 ∧ cronMatches ⟨none, none, none, none, none⟩ 8 = true ∧
      ∀ s, 7 < s → s < 8 → cronMatches ⟨none, none, none, none, none⟩ s = false :=
  next_cron_occurrence_earliest ⟨none, none, none, none, none⟩ 7 1 8 rfl

/-- C4: the claim fails on the code. A full fetched batch does not make the
bucket loop repeat: for any non-empty batch `add_cron_events` raises a
NameError (the unbound `new_cron_events` at scheduler.py line 158) before
`check_for_more` can run, the errback consumes the failure, and the loop
stops — concretely a successful full batch of 2 with `batchsize = 2` yields
exactly one fetch, and in general no bucket ever fetches twice in a tick. -/
theorem bucket_loop_never_repeats :
    (doCheck (fun _ => 60) 2
        [.ok [(⟨"t1", "g1", "p1", 0, none⟩, .ok ()),
              (⟨"t1", "g1", "p2", 0, none⟩, .ok ())],
         .ok []]).1 = 1 ∧
    ∀ (nextOcc : String → Nat) (batchsize : Nat) (fetches : List FetchResult),
      (doCheck nextOcc batchsize fetches).1 ≤ 1 :=
  ⟨rfl, doCheck_calls_le_one⟩

/-- C6 counterexample: on the poll sequence [ERROR, ACTIVE] the source's
`wait_for_status` ignores the ERROR status and fires successfully with the
second poll, whereas the claim requires a fatal failure at the ERROR. -/
theorem wait_for_status_error_not_fatal :
    wait_for_status "ACTIVE" ["ERROR", "ACTIVE"] = some 1 ∧
    waitForStatusClaim "ACTIVE" 10 ["ERROR", "ACTIVE"] = .fatalError 0 :=
  ⟨rfl, rfl⟩

/-- C6 amended: `wait_for_status` polls at the configured interval and fires
with the first poll whose observed status equals the expected status; an
observed ERROR status is not fatal (polling continues past it) and there is
no overall timeout (both are `@TODO` in the source). -/
theorem wait_for_status_first_match :
    ∀ (expected : String) (polls : List String) (n : Nat),
      wait_for_status expected polls = some n ↔
        polls.get? n = some expected ∧
          ∀ i, i < n → polls.get? i ≠ some expected := by
  intro expected polls
  induction polls with
  | nil => intro n; simp [wait_for_status]
  | cons s rest ih =>
      intro n
      rw [wait_for_status]
      split
      case isTrue hs =>
        have hse : s = expected := by simpa using hs
        subst hse
        constructor
        · intro h
          cases h
          exact ⟨rfl, fun i hi => absurd hi (Nat.not_lt_zero i)⟩
        · rintro ⟨h1, h2⟩
          cases n with
          | zero => rfl
          | succ m =>
              exact absurd (by simp : (s :: rest).get? 0 = some s)
                (h2 0 (Nat.succ_pos m))
      case isFalse hs =>
        have hse : ¬(s = expected) := by simpa using hs
        cases n with
        | zero =>
            constructor
            · intro h
              obtain ⟨k, _, hk0⟩ := Option.map_eq_some'.mp h
              exact absurd hk0 (Nat.succ_ne_zero k)
            · rintro ⟨h1, _⟩
              simp only [List.get?_cons_zero, Option.some.injEq] at h1
              exact absurd h1 hse
        | succ m =>
            constructor
            · intro h
              obtain ⟨k, hk, hkm⟩ := Option.map_eq_some'.mp h
              have hkm2 : k = m := by omega
              rw [hkm2] at hk
              obtain ⟨g1, g2⟩ := (ih m).mp hk
              refine ⟨by simpa using g1, ?_⟩
              intro i hi
              cases i with
              | zero =>
                  simp only [List.get?_cons_zero, ne_eq, Option.some.injEq]
                  exact hse
              | succ j =>
                  have := g2 j (by omega)
                  simpa using this
            · rintro ⟨h1, h2⟩
              have g1 : rest.get? m = some expected := by simpa using h1
              have g2 : ∀ j, j < m → rest.get? j ≠ some expected := by
                intro j hj
                have := h2 (j + 1) (by omega)
                simpa using this
              rw [(ih m).mpr ⟨g1, g2⟩]
              rfl

/-- C6 witness for the amended claim: on [BUILD, ERROR, ACTIVE] the wait
fires with poll index 2, the first (and only) ACTIVE poll. -/
theorem wait_for_status_first_match_witness :
    wait_for_status "ACTIVE" ["BUILD", "ERROR", "ACTIVE"] = some 2 ↔
      (["BUILD", "ERROR", "ACTIVE"] : List String).get? 2 = some "ACTIVE" ∧
        ∀ i, i < 2 →
          (["BUILD", "ERROR", "ACTIVE"] : List String).get? i ≠ some "ACTIVE" :=
  wait_for_status_first_match "ACTIVE" ["BUILD", "ERROR", "ACTIVE"] 2

/-- C8: `effect_on_response` applies the side effect exactly once and
propagates the original response unchanged when the response code is in
`codes`, and returns the response with the world untouched (no side-effect
invocation) otherwise; the middleware `add_effect_on_response` does the same
to the response of the wrapped request function. -/
theorem effect_on_response_exactly_once :
    ∀ {σ : Type} (codes : List Nat) (side_effect : σ → σ) (response : Response)
      (w : σ) (request_fn : String → String → σ → Response × σ)
      (method url : String),
      effect_on_response codes side_effect response w =
        (response, if response.code ∈ codes then side_effect w else w) ∧
      add_effect_on_response side_effect codes request_fn method url w =
        ((request_fn method url w).1,
          if (request_fn method url w).1.code ∈ codes
          then side_effect (request_fn method url w).2
          else (request_fn method url w).2) := by
  intro σ codes side_effect response w request_fn method url
  constructor
  · rw [effect_on_response]
    split <;> rfl
  · show effect_on_response codes side_effect
        (request_fn method url w).1 (request_fn method url w).2 = _
    rw [effect_on_response]
    split <;> rfl

/-- C8 witness: a 401 response with the invalidation counter as the world:
the counter increments by exactly one and the response is unchanged, both
directly and through the middleware. -/
theorem effect_on_response_exactly_once_witness :
    effect_on_response [401] Nat.succ ⟨401, "badauth"⟩ 0 =
      (⟨401, "badauth"⟩, if (401 : Nat) ∈ [(401 : Nat)] then Nat.succ 0 else 0) ∧
    add_effect_on_response Nat.succ [401]
        (fun _ _ n => (⟨401, "badauth"⟩, n)) "get" "url" 0 =
      (((fun (_ _ : String) (n : Nat) => ((⟨401, "badauth"⟩ : Response), n))
          "get" "url" 0).1,
        if ((fun (_ _ : String) (n : Nat) => ((⟨401, "badauth"⟩ : Response), n))
            "get" "url" 0).1.code ∈ [(401 : Nat)]
        then Nat.succ ((fun (_ _ : String) (n : Nat) =>
            ((⟨401, "badauth"⟩ : Response), n)) "get" "url" 0).2
        else ((fun (_ _ : String) (n : Nat) =>
            ((⟨401, "badauth"⟩ : Response), n)) "get" "url" 0).2) :=
  effect_on_response_exactly_once [401] Nat.succ ⟨401, "badauth"⟩ 0
    (fun _ _ n => (⟨401, "badauth"⟩, n)) "get" "url"

end Otter
